import Mathlib

/-!
Shallow embedding of the Rozetka voice-sales agent (src/agent.py,
src/services/firebase_service.py): the call-session handoff state
machine, its event handlers, the session tools, and the persistence
layer, with theorems settling the specification claims.
-/

namespace SalesAgent

/-- The list of characters of the identity marker tested by
`participant.identity.startswith("human_operator")` in
`on_participant_connected` (agent.py line 296). -/
def humanOperatorMark : List Char := "human_operator".data

/-- Embedding of the Python test `identity.startswith("human_operator")`:
a prefix test on the character sequence of the identity string. -/
def isHumanOperator (identity : String) : Bool :=
  humanOperatorMark.isPrefixOf identity.data

/-- The mutable in-memory state of one call session: the agent object
field `_handoff_pending` (agent.py line 73) together with the AI audio
input/output enablement of the live session (toggled at agent.py lines
306-307). All other fields of `RozetkaSalesAgent` (`order_context`,
`call_id`, `firebase`, `room`) are set in `__init__` and never
reassigned by any handler. -/
structure AgentState where
  handoff_pending : Bool
  audio_input_enabled : Bool
  audio_output_enabled : Bool
deriving DecidableEq

/-- The state of a freshly started call: `_handoff_pending = False`
(agent.py line 73) and AI audio fully enabled. -/
def initState : AgentState :=
  { handoff_pending := false, audio_input_enabled := true, audio_output_enabled := true }

/-- Which party owns the live audio path, derived from the session audio
flags: the AI audio input and output are only ever disabled in favour of
a human operator (agent.py lines 304-308), so the human owns the audio
exactly when both directions are disabled. -/
inductive AudioOwner where
  | agent
  | human
deriving DecidableEq

/-- Derives the spec-level `audio_owner` field from the session state. -/
def audioOwner (s : AgentState) : AudioOwner :=
  if s.audio_input_enabled || s.audio_output_enabled then AudioOwner.agent
  else AudioOwner.human

/-- One transcript entry forwarded to the operator dashboard
(agent.py lines 170-174). -/
structure TranscriptEntry where
  speaker : String
  text : String
  timestamp : String
deriving DecidableEq

/-- One item of the session conversation history (agent.py lines 164-168):
its type tag, its role, and its text content (`none` models a Python
`None` text_content). -/
structure HistoryItem where
  type : String
  role : String
  text_content : Option String
deriving DecidableEq

/-- Embedding of the transcript-extraction loop of `transfer_to_human`
(agent.py lines 162-174): keep history items of type "message" with
truthy text content, tag the speaker from the role, truncate the text to
500 characters, and leave the timestamp empty. -/
def extractTranscript (history : List HistoryItem) : List TranscriptEntry :=
  history.filterMap fun item =>
    match item.text_content with
    | none => none
    | some t =>
      if item.type == "message" && t != "" then
        some { speaker := if item.role == "user" then "user" else "agent"
               text := t.take 500
               timestamp := "" }
      else none

/-- External side effects dispatched by the handlers: persistence
writes, the dashboard registration POST, the real-time data-channel
broadcast, the link-dispatch webhook POST, and log lines. -/
inductive Effect where
  | firebaseRequestHandoff (call_id reason : String)
  | dashboardRegister (call_id room_name phone customer product reason : String)
      (transcript : List TranscriptEntry)
  | broadcastData (payload : String)
  | firebaseUpdateStatus (call_id status : String)
  | webhookPost (platform phone link : String)
  | log (msg : String)
deriving DecidableEq

/-- True exactly for a log-line effect. -/
def Effect.isLog : Effect → Bool
  | Effect.log _ => true
  | _ => false

/-- The duck-typed order-context dictionary: each field is `none` when the
key is absent, mirroring Python `dict.get` defaults at every use site. -/
structure OrderContextDict where
  order_id : Option String
  customer_name : Option String
  product_name : Option String
  product_price : Option Int
  upsell_product : Option String
  upsell_price : Option Int
  phone : Option String
deriving DecidableEq

/-- The constructor-time configuration of one `RozetkaSalesAgent`
(agent.py lines 62-72): these fields are set in `__init__` and never
reassigned. `room` is the room name when a room object is attached and
`none` for a Python `None` room; `firebaseConfigured` models the Python
truthiness of `self.firebase and self.call_id` tested at agent.py
line 155. -/
structure AgentConfig where
  call_id : String
  room : Option String
  order_context : OrderContextDict
  firebaseConfigured : Bool

/-- Whether a single external interaction raised an exception
(`fail`, the `except` branch runs) or completed (`ok`). -/
inductive Outcome where
  | ok
  | fail
deriving DecidableEq

/-- Result of the link-dispatch POST in `send_link` (agent.py lines
112-124): a response with some HTTP status, an `httpx.HTTPError` raised
by the transport (timeouts included), or any other exception. -/
inductive DispatchResult where
  | response (status : Nat)
  | transportFailure
  | otherFailure
deriving DecidableEq

/-- httpx `response.raise_for_status` raises unless the status is a 2xx
success code. -/
def is2xx (status : Nat) : Bool := 200 ≤ status && status < 300

/-- The confirmation returned by `send_link` on success (agent.py
line 126). -/
def confirmationText (platform : String) : String :=
  "Link successfully sent via " ++ platform ++ ". Ask if they received it."

/-- The fallback returned by `send_link` on an `httpx.HTTPError`
(agent.py line 129). -/
def httpFallbackText (platform : String) : String :=
  "Sorry, I couldn\x27t send the link via " ++ platform ++
    " right now. Please try again later or I can give you the link verbally."

/-- The fallback returned by `send_link` on any other exception
(agent.py line 132). -/
def genericFallbackText : String :=
  "There was an issue sending the link. Would you like me to read it to you instead?"

/-- Embedding of the `send_link` tool (agent.py lines 90-132): one POST
to the link-dispatch webhook, then a returned string selected by the
outcome; every exception is caught inside the tool, so the embedding is
a total function. -/
def send_link (cfg : AgentConfig) (platform link : String) (result : DispatchResult) :
    List Effect × String :=
  let phone := cfg.order_context.phone.getD "unknown"
  let post := Effect.webhookPost platform phone link
  match result with
  | DispatchResult.response status =>
      ([post], if is2xx status then confirmationText platform else httpFallbackText platform)
  | DispatchResult.transportFailure => ([post], httpFallbackText platform)
  | DispatchResult.otherFailure => ([post], genericFallbackText)

/-- The fixed transfer announcement returned by `transfer_to_human`
(agent.py line 214). -/
def transferText : String :=
  "I\x27m connecting you with one of our team members now. Please hold for just a moment while I transfer you. They will have all the context from our conversation."

/-- The data-channel payload built by f-string interpolation at agent.py
line 203: the call id and reason are spliced into a JSON-shaped template
verbatim, with no escaping. -/
def handoffPayload (call_id reason : String) : String :=
  "\x7b\"type\":\"handoff\",\"call_id\":\"" ++ call_id ++ "\",\"reason\":\"" ++ reason ++ "\"\x7d"

/-- The primitive steps of the `transfer_to_human` handler body, in
program order: the synchronous in-memory flag write, the dispatch of one
awaited external side effect, and a log line. -/
inductive Action where
  | setHandoffPending
  | dispatch (e : Effect)
  | logLine (msg : String)
deriving DecidableEq

/-- Embedding of the `transfer_to_human` tool (agent.py lines 134-214).
Returns the successor in-memory state, the ordered trace of primitive
actions the handler body performs, and the returned string. Each of the
three external side effects is attempted inside its own try/except
(lines 155-159, 179-197, 200-207), so a `fail` outcome only appends the
corresponding error log line and never suppresses a later effect; the
returned string is the fixed transfer announcement on every path. -/
def transfer_to_human (cfg : AgentConfig) (reason : String) (history : List HistoryItem)
    (ofb odash obc : Outcome) (s : AgentState) : AgentState × List Action × String :=
  let s1 := { s with handoff_pending := true }
  let fbActs : List Action :=
    if cfg.firebaseConfigured then
      Action.dispatch (Effect.firebaseRequestHandoff cfg.call_id reason) ::
        (match ofb with
         | Outcome.ok => []
         | Outcome.fail => [Action.logLine "Failed to update handoff status"])
    else []
  let transcript := extractTranscript history
  let room_name := cfg.room.getD "unknown"
  let dashActs : List Action :=
    Action.dispatch (Effect.dashboardRegister cfg.call_id room_name
        (cfg.order_context.phone.getD "Unknown")
        (cfg.order_context.customer_name.getD "Customer")
        (cfg.order_context.product_name.getD "Unknown") reason transcript) ::
      (match odash with
       | Outcome.ok => [Action.logLine "Handoff registered with dashboard"]
       | Outcome.fail => [Action.logLine "Could not register handoff with dashboard"])
  let bcActs : List Action :=
    match cfg.room with
    | some _ =>
        Action.dispatch (Effect.broadcastData (handoffPayload cfg.call_id reason)) ::
          (match obc with
           | Outcome.ok => []
           | Outcome.fail => [Action.logLine "Could not send handoff notification"])
    | none => []
  (s1,
   Action.logLine "Handoff requested" :: Action.setHandoffPending ::
     (fbActs ++ dashActs ++ bcActs ++
       [Action.logLine "Customer will be placed on hold after transfer message"]),
   transferText)

/-- How far the try block at agent.py lines 305-310 got before an
exception: both `set_audio_enabled(False)` calls succeed, only the input
one does, or neither does. -/
inductive AudioDisableResult where
  | both
  | inputOnly
  | neither
deriving DecidableEq

/-- Applies the audio-disable try block to the session state. -/
def applyAudioDisable (s : AgentState) (r : AudioDisableResult) : AgentState :=
  match r with
  | AudioDisableResult.both =>
      { s with audio_input_enabled := false, audio_output_enabled := false }
  | AudioDisableResult.inputOnly => { s with audio_input_enabled := false }
  | AudioDisableResult.neither => s

/-- Embedding of the `participant_connected` handler (agent.py lines
293-319): a human-operator-identity join with the handoff flag set
disables AI audio and dispatches the `human_handling` status write; the
same join without the flag only logs; any other join does nothing. -/
def on_participant_connected (call_id : String) (s : AgentState) (identity : String)
    (ar : AudioDisableResult) : AgentState × List Effect :=
  if isHumanOperator identity then
    if s.handoff_pending then
      (applyAudioDisable s ar,
       [Effect.log "Human operator joined",
        Effect.log "Handoff pending - disabling AI audio I/O for warm transfer",
        (match ar with
         | AudioDisableResult.both =>
             Effect.log "AI audio disabled - human operator now handling call"
         | _ => Effect.log "Error disabling AI audio"),
        Effect.firebaseUpdateStatus call_id "human_handling"])
    else
      (s, [Effect.log "Human operator joined",
           Effect.log "Human operator joined but no handoff was requested"])
  else (s, [])

/-- Embedding of the `disconnected` handler (agent.py lines 322-329):
it only schedules the `completed` status write and leaves the in-memory
session state untouched. -/
def on_disconnect (call_id : String) (s : AgentState) : AgentState × List Effect :=
  (s, [Effect.firebaseUpdateStatus call_id "completed"])

/-- The events processed against one call session: the two tool
invocations, a participant join, and the room disconnect, each carrying
the outcome of its environment interactions. -/
inductive Event where
  | toolSendLink (platform link : String) (result : DispatchResult)
  | toolTransferToHuman (reason : String) (history : List HistoryItem) (ofb odash obc : Outcome)
  | participantConnected (identity : String) (ar : AudioDisableResult)
  | disconnected
deriving DecidableEq

/-- The in-memory state transition of one event. -/
def stepState (cfg : AgentConfig) (s : AgentState) (e : Event) : AgentState :=
  match e with
  | Event.toolSendLink _ _ _ => s
  | Event.toolTransferToHuman reason history ofb odash obc =>
      (transfer_to_human cfg reason history ofb odash obc s).1
  | Event.participantConnected identity ar =>
      (on_participant_connected cfg.call_id s identity ar).1
  | Event.disconnected => (on_disconnect cfg.call_id s).1

/-- The state reached after processing a sequence of events from the
start of the call. -/
def runEvents (cfg : AgentConfig) (events : List Event) : AgentState :=
  events.foldl (stepState cfg) initState

/-- A Firestore order document as read back by `get_order_context`
(firebase_service.py lines 64-73): the document id plus the optional
fields drawn out with `data.get`. -/
structure OrderDoc where
  id : String
  customer_name : Option String
  product_name : Option String
  price : Option Int
  upsell_product : Option String
  upsell_price : Option Int
deriving DecidableEq

/-- What the order query against the backing store yields for one
caller: the store is unconfigured (mock mode), the query raises, the
first matching document, or no match. -/
inductive OrderLookup where
  | unconfigured
  | queryFailure
  | found (doc : OrderDoc)
  | noMatch
deriving DecidableEq

/-- The fallback order context returned by `get_order_context`
(firebase_service.py lines 77-85). -/
def mockOrderContext : OrderContextDict :=
  { order_id := some "mock-123"
    customer_name := some "Valued Customer"
    product_name := some "Samsung Galaxy S24"
    product_price := some 25999
    upsell_product := some "Premium Protection Plan"
    upsell_price := some 1499
    phone := none }

/-- Embedding of `FirebaseService.get_order_context` (firebase_service.py
lines 49-85): with a configured store and a matching document the result
is built from the document with per-field defaults; a query exception is
caught and, like no-match and mock mode, falls through to the fixed mock
context. The embedding is a total function: no path raises. -/
def get_order_context (lookup : OrderLookup) : OrderContextDict :=
  match lookup with
  | OrderLookup.found doc =>
      { order_id := some doc.id
        customer_name := some (doc.customer_name.getD "Customer")
        product_name := some (doc.product_name.getD "your order")
        product_price := some (doc.price.getD 0)
        upsell_product := some (doc.upsell_product.getD "a premium warranty")
        upsell_price := some (doc.upsell_price.getD 199)
        phone := none }
  | _ => mockOrderContext

/-- The persisted call document written by `log_call_start`
(firebase_service.py lines 98-109). -/
structure CallRecord where
  room_name : String
  phone : String
  order_id : Option String
  customer_name : Option String
  status : String
  started_at : String
  transcript : List TranscriptEntry
  upsell_offered : Bool
  upsell_accepted : Bool
  handoff_requested : Bool
deriving DecidableEq

/-- The `calls` collection of the backing store: the fresh-id supply
index consumed by `document()` and the stored documents. -/
structure CallsCollection where
  nextFreshId : Nat
  docs : List (String × CallRecord)
deriving DecidableEq

/-- The mode of the Call Record Store: Firestore configured (with the
write succeeding or raising), or the mock mode entered when credentials
are absent (firebase_service.py lines 24-27). -/
inductive StoreMode where
  | firestore (writeOk : Bool)
  | mock
deriving DecidableEq

/-- Builds the call document of `log_call_start` from its arguments. -/
def initialCallRecord (now room_name phone_number : String)
    (order_context : OrderContextDict) : CallRecord :=
  { room_name := room_name
    phone := phone_number
    order_id := order_context.order_id
    customer_name := order_context.customer_name
    status := "in_progress"
    started_at := now
    transcript := []
    upsell_offered := false
    upsell_accepted := false
    handoff_requested := false }

/-- Embedding of `FirebaseService.log_call_start` (firebase_service.py
lines 87-120). `gen` models Firestore `document()`, which draws a fresh
auto id from the external id supply; a write exception and mock mode
both fall through to the `"mock-call-" + room_name` return with nothing
stored. Returns the updated collection and the returned call id. -/
def log_call_start (mode : StoreMode) (gen : Nat → String) (db : CallsCollection)
    (now room_name phone_number : String) (order_context : OrderContextDict) :
    CallsCollection × String :=
  let call_data := initialCallRecord now room_name phone_number order_context
  match mode with
  | StoreMode.firestore true =>
      ({ nextFreshId := db.nextFreshId + 1
         docs := db.docs ++ [(gen db.nextFreshId, call_data)] },
       gen db.nextFreshId)
  | StoreMode.firestore false => (db, "mock-call-" ++ room_name)
  | StoreMode.mock => (db, "mock-call-" ++ room_name)

/-- Whether the link-dispatch POST of `send_link` succeeded: a response
was obtained and its status is 2xx. -/
def dispatchSucceeded : DispatchResult → Bool
  | DispatchResult.response status => is2xx status
  | _ => false

/-- A well-formed order context: all six order fields are present, as
the spec requires of every record `get_order_context` returns. -/
def wellFormedContext (ctx : OrderContextDict) : Bool :=
  ctx.order_id.isSome && ctx.customer_name.isSome && ctx.product_name.isSome &&
    ctx.product_price.isSome && ctx.upsell_product.isSome && ctx.upsell_price.isSome

/-- Lower-case hex digit for a value below 16. -/
def hexDigitChar (n : Nat) : Char :=
  if n < 10 then Char.ofNat (48 + n) else Char.ofNat (87 + n)

/-- Modelled from the spec: RFC 8259 escaping of one character of a JSON
string literal (quote and backslash escaped, control characters written
as a \u sequence, everything else verbatim). This is the spec-side
definition of "JSON-encoded" used to compare against the payload the
code builds. -/
def jsonEscapeChar (c : Char) : List Char :=
  if c = '"' then ['\\', '"']
  else if c = '\\' then ['\\', '\\']
  else if c.toNat < 32 then
    ['\\', 'u', '0', '0', hexDigitChar (c.toNat / 16), hexDigitChar (c.toNat % 16)]
  else [c]

/-- Modelled from the spec: JSON escaping of a whole string. -/
def jsonEscapeString (s : String) : String :=
  String.mk (s.data.flatMap jsonEscapeChar)

/-- Modelled from the spec: the JSON encoding (minimal RFC 8259 form,
no added whitespace) of the object with members `type = "handoff"`,
`call_id` and `reason`, in that member order. -/
def jsonEncodeHandoff (call_id reason : String) : String :=
  "\x7b\"type\":\"handoff\",\"call_id\":\"" ++ jsonEscapeString call_id ++
    "\",\"reason\":\"" ++ jsonEscapeString reason ++ "\"\x7d"

/-- A character that JSON escaping leaves unchanged: not a quote, not a
backslash, not a control character. -/
def jsonPlainChar (c : Char) : Bool :=
  !(c = '"' : Bool) && !(c = '\\' : Bool) && decide (32 ≤ c.toNat)

/-- The inductive invariant: AI audio is only (even partly) disabled
when the handoff flag is already set. -/
def handoffInv (s : AgentState) : Prop :=
  (s.audio_input_enabled = false ∨ s.audio_output_enabled = false) → s.handoff_pending = true

/-- An empty calls collection, for concrete instantiations. -/
def emptyCallsCollection : CallsCollection :=
  { nextFreshId := 0, docs := [] }

/-- A concrete fresh-id supply standing in for Firestore auto ids: the
id of index n is a run of n copies of one character, so distinct indices
give distinct ids. -/
def sampleIdSupply : Nat → String :=
  fun n => String.mk (List.replicate n 'x')

/-- A sample agent configuration, as built by the `sales_agent` entry
point: firebase and a room attached, the mock order context. -/
def sampleConfig : AgentConfig :=
  { call_id := "call-1"
    room := some "room-1"
    order_context := mockOrderContext
    firebaseConfigured := true }

/-- A sample event sequence: a handoff request followed by a
human-operator join. -/
def sampleEvents : List Event :=
  [Event.toolTransferToHuman "customer requested manager" [] Outcome.ok Outcome.ok Outcome.ok,
   Event.participantConnected "human_operator_42" AudioDisableResult.both]

theorem applyAudioDisable_handoff (s : AgentState) (ar : AudioDisableResult) :
    (applyAudioDisable s ar).handoff_pending = s.handoff_pending := by
  cases ar <;> rfl

theorem on_participant_connected_state (call_id : String) (s : AgentState) (identity : String)
    (ar : AudioDisableResult) :
    (on_participant_connected call_id s identity ar).1 =
      if isHumanOperator identity && s.handoff_pending then applyAudioDisable s ar else s := by
  by_cases h1 : isHumanOperator identity = true
  · by_cases h2 : s.handoff_pending = true
    · simp [on_participant_connected, h1, h2]
    · simp [on_participant_connected, h1, h2]
  · simp [on_participant_connected, h1]

theorem stepState_handoff_mono (cfg : AgentConfig) (s : AgentState) (e : Event)
    (h : s.handoff_pending = true) : (stepState cfg s e).handoff_pending = true := by
  cases e with
  | toolSendLink _ _ _ => exact h
  | toolTransferToHuman reason history ofb odash obc => rfl
  | participantConnected identity ar =>
    simp only [stepState]
    rw [on_participant_connected_state]
    split
    · rw [applyAudioDisable_handoff]
      exact h
    · exact h
  | disconnected => exact h

theorem stepState_preserves_handoffInv (cfg : AgentConfig) (s : AgentState) (e : Event)
    (h : handoffInv s) : handoffInv (stepState cfg s e) := by
  cases e with
  | toolSendLink _ _ _ => exact h
  | toolTransferToHuman reason history ofb odash obc =>
    intro _
    rfl
  | participantConnected identity ar =>
    simp only [stepState]
    rw [on_participant_connected_state]
    split
    · next hcond =>
      intro _
      rw [applyAudioDisable_handoff]
      exact ((Bool.and_eq_true _ _).mp hcond).2
    · exact h
  | disconnected => exact h

theorem runEvents_handoffInv (cfg : AgentConfig) (events : List Event) :
    handoffInv (runEvents cfg events) := by
  have base : handoffInv initState := by
    intro hcontra
    simp [initState] at hcontra
  rw [runEvents]
  induction events generalizing cfg with
  | nil => exact base
  | cons e es ih =>
    rw [List.foldl_cons]
    have : ∀ s, handoffInv s → handoffInv (es.foldl (stepState cfg) s) := by
      clear ih
      induction es with
      | nil => intro s hs; exact hs
      | cons f fs ihf =>
        intro s hs
        rw [List.foldl_cons]
        exact ihf _ (stepState_preserves_handoffInv cfg s f hs)
    exact this _ (stepState_preserves_handoffInv cfg initState e base)

/-- C1: across every sequence of call-session events, whenever the
derived `audio_owner` is the human operator, the in-memory handoff flag
`_handoff_pending` is true: AI audio is only surrendered to a human
after a handoff request. -/
theorem audio_owner_human_implies_handoff (cfg : AgentConfig) (events : List Event)
    (h : audioOwner (runEvents cfg events) = AudioOwner.human) :
    (runEvents cfg events).handoff_pending = true := by
  have hinv := runEvents_handoffInv cfg events
  apply hinv
  by_contra hcontra
  push_neg at hcontra
  obtain ⟨h1, h2⟩ := hcontra
  have h1' : (runEvents cfg events).audio_input_enabled = true := by
    cases hb : (runEvents cfg events).audio_input_enabled
    · exact absurd hb h1
    · rfl
  simp [audioOwner, h1'] at h

/-- Witness for C1 at a concrete run: a handoff request followed by a
human-operator join ends with the human owning the audio and the flag
set. -/
theorem audio_owner_human_implies_handoff_witness :
    audioOwner (runEvents sampleConfig sampleEvents) = AudioOwner.human ∧
      (runEvents sampleConfig sampleEvents).handoff_pending = true :=
  ⟨by decide, audio_owner_human_implies_handoff sampleConfig sampleEvents (by decide)⟩

/-- C2: the first `transfer_to_human` invocation leaves the in-memory
flag true, a second invocation on the resulting state is a state no-op,
and no event of the program ever clears the flag afterwards. -/
theorem transfer_handoff_flag_set_once (cfg cfg2 : AgentConfig) (reason reason2 : String)
    (history history2 : List HistoryItem) (o1 o2 o3 p1 p2 p3 : Outcome) (s : AgentState) :
    ((transfer_to_human cfg reason history o1 o2 o3 s).1.handoff_pending = true) ∧
    ((transfer_to_human cfg2 reason2 history2 p1 p2 p3
        (transfer_to_human cfg reason history o1 o2 o3 s).1).1 =
      (transfer_to_human cfg reason history o1 o2 o3 s).1) ∧
    (∀ cfg3 e, (stepState cfg3 (transfer_to_human cfg reason history o1 o2 o3 s).1 e).handoff_pending = true) :=
  ⟨rfl, rfl, fun cfg3 e => stepState_handoff_mono cfg3 _ e rfl⟩

/-- C3: the `transfer_to_human` handler writes the in-memory flag as its
first state-changing step — the flag write is the action at index 1 of
the handler trace, right after the entry log line — so it precedes every
dispatched side effect, and the handler leaves the flag true. -/
theorem handoff_flag_set_before_dispatch (cfg : AgentConfig) (reason : String)
    (history : List HistoryItem) (o1 o2 o3 : Outcome) (s : AgentState) :
    ((transfer_to_human cfg reason history o1 o2 o3 s).1.handoff_pending = true) ∧
    ((transfer_to_human cfg reason history o1 o2 o3 s).2.1[1]? = some Action.setHandoffPending) ∧
    (∀ (i : Nat) (e : Effect),
      (transfer_to_human cfg reason history o1 o2 o3 s).2.1[i]? = some (Action.dispatch e) →
      ∃ j, j < i ∧
        (transfer_to_human cfg reason history o1 o2 o3 s).2.1[j]? = some Action.setHandoffPending) := by
  refine ⟨rfl, by simp [transfer_to_human], ?_⟩
  intro i e h
  refine ⟨1, ?_, by simp [transfer_to_human]⟩
  match i with
  | 0 => simp [transfer_to_human] at h
  | 1 => simp [transfer_to_human] at h
  | n + 2 => omega

/-- Witness for C3: in a concrete invocation the persistence dispatch
sits at index 2 of the trace and the flag write strictly precedes it. -/
theorem handoff_flag_set_before_dispatch_witness :
    ∃ j, j < 2 ∧
      (transfer_to_human sampleConfig "reason" [] Outcome.ok Outcome.ok Outcome.ok
          initState).2.1[j]? = some Action.setHandoffPending :=
  (handoff_flag_set_before_dispatch sampleConfig "reason" [] Outcome.ok Outcome.ok Outcome.ok
      initState).2.2 2
    (Effect.firebaseRequestHandoff "call-1" "reason") (by decide)

/-- C4: a human-operator join while no handoff is pending leaves the
in-memory session state exactly as it was and produces nothing but log
lines (in particular no audio change and no status persistence). -/
theorem operator_join_without_handoff_is_noop (call_id : String) (s : AgentState)
    (identity : String) (ar : AudioDisableResult)
    (hop : isHumanOperator identity = true) (hp : s.handoff_pending = false) :
    ((on_participant_connected call_id s identity ar).1 = s) ∧
    ((on_participant_connected call_id s identity ar).2.all Effect.isLog = true) ∧
    ((on_participant_connected call_id s identity ar).2 ≠ []) := by
  simp [on_participant_connected, hop, hp, Effect.isLog]

/-- Witness for C4: a concrete spurious operator join with the flag
clear is a pure log no-op. -/
theorem operator_join_without_handoff_is_noop_witness :
    ((on_participant_connected "call-1" initState "human_operator_7" AudioDisableResult.both).1 =
      initState) ∧
    ((on_participant_connected "call-1" initState "human_operator_7"
        AudioDisableResult.both).2.all Effect.isLog = true) ∧
    ((on_participant_connected "call-1" initState "human_operator_7"
        AudioDisableResult.both).2 ≠ []) :=
  operator_join_without_handoff_is_noop "call-1" initState "human_operator_7"
    AudioDisableResult.both (by decide) (by decide)

/-- C5: `send_link` is a total function of the dispatch result — no
exception crosses the tool boundary — returning the confirmation string
exactly on a 2xx response and one of the two verbal-delivery fallback
strings on every failure. -/
theorem send_link_response_policy (cfg : AgentConfig) (platform link : String)
    (result : DispatchResult) :
    ((send_link cfg platform link result).2 = confirmationText platform ∨
      (send_link cfg platform link result).2 = httpFallbackText platform ∨
      (send_link cfg platform link result).2 = genericFallbackText) ∧
    (dispatchSucceeded result = true →
      (send_link cfg platform link result).2 = confirmationText platform) ∧
    (dispatchSucceeded result = false →
      (send_link cfg platform link result).2 = httpFallbackText platform ∨
      (send_link cfg platform link result).2 = genericFallbackText) := by
  cases result with
  | response status =>
    by_cases h2 : is2xx status = true
    · simp [send_link, dispatchSucceeded, h2]
    · simp [send_link, dispatchSucceeded, h2]
  | transportFailure => simp [send_link, dispatchSucceeded]
  | otherFailure => simp [send_link, dispatchSucceeded]

/-- Witness for C5: a 200 response yields the confirmation text and a
transport failure yields the verbal fallback. -/
theorem send_link_response_policy_witness :
    ((send_link sampleConfig "telegram" "https://rozetka.ua/p1" (DispatchResult.response 200)).2 =
      confirmationText "telegram") ∧
    ((send_link sampleConfig "telegram" "https://rozetka.ua/p1"
        DispatchResult.transportFailure).2 = httpFallbackText "telegram" ∨
      (send_link sampleConfig "telegram" "https://rozetka.ua/p1"
        DispatchResult.transportFailure).2 = genericFallbackText) :=
  ⟨(send_link_response_policy sampleConfig "telegram" "https://rozetka.ua/p1"
      (DispatchResult.response 200)).2.1 (by decide),
   (send_link_response_policy sampleConfig "telegram" "https://rozetka.ua/p1"
      DispatchResult.transportFailure).2.2 (by decide)⟩

/-- C6: `get_order_context` is total — the embedding returns on every
lookup result, modelling that no path raises — its result always carries
all six context fields, and every non-match path (unconfigured store,
query exception, no matching document) yields exactly the fixed default
record, whose customer and product names and upsell fields are the
claimed non-empty values. -/
theorem get_order_context_default_on_miss (lookup : OrderLookup) :
    (wellFormedContext (get_order_context lookup) = true) ∧
    ((lookup = OrderLookup.unconfigured ∨ lookup = OrderLookup.queryFailure ∨
        lookup = OrderLookup.noMatch) →
      get_order_context lookup = mockOrderContext) ∧
    (mockOrderContext.customer_name = some "Valued Customer") ∧
    (mockOrderContext.product_name = some "Samsung Galaxy S24") ∧
    ((mockOrderContext.upsell_product.getD "") ≠ "") ∧
    (mockOrderContext.upsell_price = some 1499) := by
  refine ⟨?_, ?_, by decide, by decide, by decide, by decide⟩
  · cases lookup <;> simp [get_order_context, wellFormedContext, mockOrderContext]
  · rintro (rfl | rfl | rfl) <;> rfl

/-- Witness for C6: an unresolvable caller (no matching document) gets
the default record. -/
theorem get_order_context_default_on_miss_witness :
    get_order_context OrderLookup.noMatch = mockOrderContext :=
  (get_order_context_default_on_miss OrderLookup.noMatch).2.1 (Or.inr (Or.inr rfl))

/-- C7: for every combination of side-effect outcomes the
`transfer_to_human` response is the one fixed transfer announcement, and
all three side effects — handoff persistence, dashboard registration,
data-channel broadcast — appear in the handler trace, so no failure of
one suppresses another. The two hypotheses state the configuration of
the real call flow: a firebase handle with a call id, and an attached
room. -/
theorem transfer_fixed_response_and_effects (cfg : AgentConfig) (reason : String)
    (history : List HistoryItem) (o1 o2 o3 : Outcome) (s : AgentState) (room_name : String)
    (hfb : cfg.firebaseConfigured = true) (hroom : cfg.room = some room_name) :
    ((transfer_to_human cfg reason history o1 o2 o3 s).2.2 = transferText) ∧
    (Action.dispatch (Effect.firebaseRequestHandoff cfg.call_id reason) ∈
      (transfer_to_human cfg reason history o1 o2 o3 s).2.1) ∧
    (Action.dispatch (Effect.dashboardRegister cfg.call_id room_name
        (cfg.order_context.phone.getD "Unknown")
        (cfg.order_context.customer_name.getD "Customer")
        (cfg.order_context.product_name.getD "Unknown") reason (extractTranscript history)) ∈
      (transfer_to_human cfg reason history o1 o2 o3 s).2.1) ∧
    (Action.dispatch (Effect.broadcastData (handoffPayload cfg.call_id reason)) ∈
      (transfer_to_human cfg reason history o1 o2 o3 s).2.1) := by
  cases o1 <;> cases o2 <;> cases o3 <;> simp [transfer_to_human, hfb, hroom]

/-- Witness for C7: with two of the three side effects failing, the
response is still the fixed announcement and the broadcast is still
attempted. -/
theorem transfer_fixed_response_and_effects_witness :
    ((transfer_to_human sampleConfig "upset customer" [] Outcome.fail Outcome.fail Outcome.ok
        initState).2.2 = transferText) ∧
    (Action.dispatch (Effect.broadcastData (handoffPayload "call-1" "upset customer")) ∈
      (transfer_to_human sampleConfig "upset customer" [] Outcome.fail Outcome.fail Outcome.ok
        initState).2.1) :=
  ⟨(transfer_fixed_response_and_effects sampleConfig "upset customer" [] Outcome.fail
      Outcome.fail Outcome.ok initState "room-1" (by decide) (by decide)).1,
   (transfer_fixed_response_and_effects sampleConfig "upset customer" [] Outcome.fail
      Outcome.fail Outcome.ok initState "room-1" (by decide) (by decide)).2.2.2⟩

/-- C8 counterexample: in degraded (mock) mode two `log_call_start`
invocations for the same room return the identical identifier
"mock-call-room-1" and store no record at all, refuting that the
create operation returns fresh distinct identifiers identically in
degraded mode. -/
theorem log_call_start_mock_ids_collide :
    ((log_call_start StoreMode.mock sampleIdSupply emptyCallsCollection
        "2026-01-01T00:00:00+00:00" "room-1" "+380501234567" mockOrderContext).2 =
      (log_call_start StoreMode.mock sampleIdSupply
        (log_call_start StoreMode.mock sampleIdSupply emptyCallsCollection
          "2026-01-01T00:00:00+00:00" "room-1" "+380501234567" mockOrderContext).1
        "2026-01-01T00:05:00+00:00" "room-1" "+380501234567" mockOrderContext).2) ∧
    ((log_call_start StoreMode.mock sampleIdSupply
        (log_call_start StoreMode.mock sampleIdSupply emptyCallsCollection
          "2026-01-01T00:00:00+00:00" "room-1" "+380501234567" mockOrderContext).1
        "2026-01-01T00:05:00+00:00" "room-1" "+380501234567" mockOrderContext).1.docs.length =
      0) := by
  exact ⟨rfl, rfl⟩

theorem sampleIdSupply_injective : Function.Injective sampleIdSupply := by
  intro a b h
  have hlen : (sampleIdSupply a).data.length = (sampleIdSupply b).data.length := by rw [h]
  simpa [sampleIdSupply] using hlen

/-- C8 amended: with Firestore configured and the write succeeding,
every create appends one new record and returns a fresh id drawn from
the external id supply, so two successive creates return distinct
identifiers; in degraded (mock) mode the call is non-throwing with the
same signature but returns the deterministic id "mock-call-" + room_name
and stores nothing, so identifiers repeat for the same room. -/
theorem log_call_start_fresh_ids_amended (gen : Nat → String)
    (hgen : Function.Injective gen) (db : CallsCollection)
    (now now2 room room2 phone phone2 : String) (ctx ctx2 : OrderContextDict) :
    ((log_call_start (StoreMode.firestore true) gen db now room phone ctx).2 ≠
      (log_call_start (StoreMode.firestore true) gen
        (log_call_start (StoreMode.firestore true) gen db now room phone ctx).1
        now2 room2 phone2 ctx2).2) ∧
    ((log_call_start (StoreMode.firestore true) gen db now room phone ctx).1.docs.length =
      db.docs.length + 1) ∧
    ((log_call_start StoreMode.mock gen db now room phone ctx).2 = "mock-call-" ++ room) ∧
    ((log_call_start StoreMode.mock gen db now room phone ctx).1 = db) := by
  refine ⟨?_, by simp [log_call_start], rfl, rfl⟩
  intro h
  simp only [log_call_start] at h
  have := hgen h
  omega

/-- Witness for C8 amended: from an empty collection, two configured
creates return distinct identifiers. -/
theorem log_call_start_fresh_ids_amended_witness :
    (log_call_start (StoreMode.firestore true) sampleIdSupply emptyCallsCollection
        "t1" "room-1" "+380501234567" mockOrderContext).2 ≠
      (log_call_start (StoreMode.firestore true) sampleIdSupply
        (log_call_start (StoreMode.firestore true) sampleIdSupply emptyCallsCollection
          "t1" "room-1" "+380501234567" mockOrderContext).1
        "t2" "room-1" "+380501234567" mockOrderContext).2 :=
  (log_call_start_fresh_ids_amended sampleIdSupply sampleIdSupply_injective
      emptyCallsCollection "t1" "t2" "room-1" "room-1" "+380501234567" "+380501234567"
      mockOrderContext mockOrderContext).1

/-- C9 counterexample: for a reason string containing a double quote the
payload built by the f-string at agent.py line 203 differs from the JSON
encoding of the handoff object — the quote is spliced in unescaped: the
JSON encoding contains an escaping backslash, the produced payload
contains no backslash at all. -/
theorem handoff_payload_not_json_encoding :
    (handoffPayload "call-1" "say \"no\"" ≠ jsonEncodeHandoff "call-1" "say \"no\"") ∧
    ('\\' ∈ (jsonEncodeHandoff "call-1" "say \"no\"").data) ∧
    ('\\' ∉ (handoffPayload "call-1" "say \"no\"").data) := by
  refine ⟨by decide, by decide, by decide⟩

theorem jsonEscapeChar_plain (c : Char) (h : jsonPlainChar c = true) :
    jsonEscapeChar c = [c] := by
  simp only [jsonPlainChar, Bool.and_eq_true, Bool.not_eq_true', decide_eq_true_eq,
    decide_eq_false_iff_not] at h
  obtain ⟨⟨h1, h2⟩, h3⟩ := h
  rw [jsonEscapeChar, if_neg h1, if_neg h2, if_neg (Nat.not_lt.mpr h3)]

theorem jsonEscapeString_plain (s : String) (h : s.data.all jsonPlainChar = true) :
    jsonEscapeString s = s := by
  cases s with
  | mk l =>
    simp only [jsonEscapeString]
    congr 1
    induction l with
    | nil => rfl
    | cons c cs ih =>
      simp only [List.all_cons, Bool.and_eq_true] at h
      simp [jsonEscapeChar_plain c h.1, ih h.2]

/-- C9 amended: the broadcast payload equals the JSON encoding of the
handoff object exactly on benign inputs — whenever the call id and the
reason contain no quote, backslash or control character; with such
characters the naive interpolation produces a different (unescaped)
string. -/
theorem handoff_payload_json_when_plain (call_id reason : String)
    (h1 : call_id.data.all jsonPlainChar = true)
    (h2 : reason.data.all jsonPlainChar = true) :
    handoffPayload call_id reason = jsonEncodeHandoff call_id reason := by
  rw [jsonEncodeHandoff, jsonEscapeString_plain call_id h1, jsonEscapeString_plain reason h2,
    handoffPayload]

/-- Witness for C9 amended: a quote-free reason gives a payload equal to
the JSON encoding. -/
theorem handoff_payload_json_when_plain_witness :
    handoffPayload "call-1" "customer requested manager" =
      jsonEncodeHandoff "call-1" "customer requested manager" :=
  handoff_payload_json_when_plain "call-1" "customer requested manager" (by decide) (by decide)

theorem isPrefixOf_append_self (l t : List Char) : l.isPrefixOf (l ++ t) = true := by
  induction l with
  | nil => simp [List.isPrefixOf]
  | cons c cs ih => simp [List.isPrefixOf, ih]

/-- C10: the `participant_connected` handler takes the human-operator
path exactly when the identity has the "human_operator" character
sequence as a prefix — any suffix, not only the exact name, matches —
and a join whose identity lacks the prefix is a complete no-op: same
state, no effects, no logs, for any value of the handoff flag. -/
theorem human_operator_path_iff_name_mark (call_id : String) (s : AgentState)
    (identity : String) (ar : AudioDisableResult) :
    (∀ suffix : List Char, isHumanOperator (String.mk (humanOperatorMark ++ suffix)) = true) ∧
    (isHumanOperator identity = false →
      on_participant_connected call_id s identity ar = (s, [])) ∧
    ((on_participant_connected call_id s identity ar).2 ≠ [] ↔
      isHumanOperator identity = true) := by
  refine ⟨?_, ?_, ?_⟩
  · intro suffix
    exact isPrefixOf_append_self humanOperatorMark suffix
  · intro h
    simp [on_participant_connected, h]
  · cases hb : isHumanOperator identity with
    | false => simp [on_participant_connected, hb]
    | true =>
      by_cases hp : s.handoff_pending = true <;> simp [on_participant_connected, hb, hp]

/-- Witness for C10: "human_operator_42" matches the prefix and a
customer-identity join is a complete no-op. -/
theorem human_operator_path_iff_name_mark_witness :
    (isHumanOperator "human_operator_42" = true) ∧
    (on_participant_connected "call-1" initState "+380501234567" AudioDisableResult.both =
      (initState, [])) :=
  ⟨by decide,
   (human_operator_path_iff_name_mark "call-1" initState "+380501234567"
      AudioDisableResult.both).2.1 (by decide)⟩

end SalesAgent

